import Mathlib

/-!
# Verification of the CA-Project nutrition tracker (src/main.py)

Shallow embedding of the data-fetch-and-report pipeline of `main.py`:
the input-validation loop (`get_user_food_input`), the fetch stage
(`get_nutritional_info`), the report formatter (`format_nutritional_data`),
the artifact naming logic (`save_to_file`) and the orchestration in `main`.

JSON values arriving from the service are modelled by `PyVal`; machine
floats are modelled as rationals (every JSON number is a finite decimal).
I/O effects of `main` are modelled as an explicit trace of `Event`s driven
by a `World` record that fixes the outcome of each external operation.
-/

namespace CAProject

/-- A JSON-derived Python value, as stored in the dicts of the Nutritionix
response.  `intV`/`floatV` model Python `int`/`float` (finite numbers as
rationals), `boolV` models `bool` (a subclass of `int` in Python, so it
passes `isinstance(x, (int, float))`), `strV` strings, `null` the JSON
`null` (Python `None`). -/
inductive PyVal where
  | intV (n : ℤ)
  | floatV (q : ℚ)
  | strV (s : String)
  | boolV (b : Bool)
  | null
deriving DecidableEq, Repr

/-- The check `isinstance(x, (int, float))` from main.py lines 199-205.
Booleans pass it because Python `bool` is a subclass of `int`. -/
def isNumberVal : PyVal → Bool
  | .intV _ => true
  | .floatV _ => true
  | .boolV _ => true
  | _ => false

/-- Numeric value of a `PyVal` that passes the `isinstance` check
(`True`/`False` behave as `1`/`0` in Python numeric formatting). -/
def toRat : PyVal → ℚ
  | .intV n => n
  | .floatV q => q
  | .boolV b => if b then 1 else 0
  | _ => 0

/-- Decimal digit character; callers only pass values below 10. -/
def digitChar : Nat → Char
  | 0 => '0'
  | 1 => '1'
  | 2 => '2'
  | 3 => '3'
  | 4 => '4'
  | 5 => '5'
  | 6 => '6'
  | 7 => '7'
  | 8 => '8'
  | _ => '9'

/-- Fuel-driven decimal rendering of a natural number (most significant
digit first).  Fuel `n + 1` is always enough for input `n`. -/
def natToDigitsAux : Nat → Nat → List Char
  | 0, _ => []
  | fuel + 1, n =>
    if n < 10 then [digitChar n]
    else natToDigitsAux fuel (n / 10) ++ [digitChar (n % 10)]

/-- Decimal rendering of a natural number, e.g. `natToStr 95 = "95"`. -/
def natToStr (n : Nat) : String := String.mk (natToDigitsAux (n + 1) n)

/-- Decimal rendering of an integer (Python `str` of an `int`). -/
def intToStr (n : ℤ) : String :=
  (if n < 0 then "-" else "") ++ natToStr n.natAbs

/-- Model of the Python format spec `:.2f` on a finite number: round the
value to a whole number of hundredths (`Int.fdiv` gives the floor of
`100*q + 1/2` without normalising any rational) and print it with exactly
two digits after the decimal point. -/
def formatFixed2 (q : ℚ) : String :=
  let cents : ℤ := Int.fdiv (200 * q.num + q.den) (2 * (q.den : ℤ))
  let sgn := if cents < 0 then "-" else ""
  let m := cents.natAbs
  sgn ++ natToStr (m / 100) ++ "." ++
    String.mk [digitChar (m % 100 / 10), digitChar (m % 100 % 10)]

/-- Fractional digits of a float in `[0,1)`, at most `fuel` of them. -/
def floatFracDigits : Nat → ℚ → List Char
  | 0, _ => []
  | fuel + 1, q =>
    if q = 0 then []
    else
      let d := (Int.fdiv (q.num * 10) (q.den : ℤ)).toNat
      digitChar d :: floatFracDigits fuel (q * 10 - (d : ℚ))

/-- Model of Python `str` on a `float`: integer part, a dot, and the
fractional digits (at least one, `1.0` style). -/
def pyFloatRepr (q : ℚ) : String :=
  let sgn := if q < 0 then "-" else ""
  let a := if q < 0 then -q else q
  let ip := (Int.fdiv a.num (a.den : ℤ)).toNat
  let ds := floatFracDigits 17 (a - (ip : ℚ))
  sgn ++ natToStr ip ++ "." ++ (if ds = [] then "0" else String.mk ds)

/-- Model of Python `str`/f-string interpolation of a `PyVal` (used for
`serving_qty` on main.py line 198, which is rendered verbatim). -/
def pyStr : PyVal → String
  | .intV n => intToStr n
  | .floatV q => pyFloatRepr q
  | .strV s => s
  | .boolV b => if b then "True" else "False"
  | .null => "None"

/-- Model of Python `str.title()` (main.py line 181): a letter is
uppercased when the previous character is not a letter, lowercased
otherwise; non-letters pass through and reset the word boundary. -/
def pyTitleAux : Bool → List Char → List Char
  | _, [] => []
  | prevAlpha, c :: cs =>
    if c.isAlpha then
      (if prevAlpha then c.toLower else c.toUpper) :: pyTitleAux true cs
    else c :: pyTitleAux false cs

/-- Python `str.title()`. -/
def pyTitle (s : String) : String := String.mk (pyTitleAux false s.data)

/-- Model of Python `str.strip()` (main.py line 69): drop leading and
trailing whitespace. -/
def pyStrip (s : String) : String :=
  String.mk
    (((s.data.dropWhile Char.isWhitespace).reverse.dropWhile
        Char.isWhitespace).reverse)

/-- One food dict of the Nutritionix `foods` array, restricted to the keys
main.py reads (lines 181-192).  `none` models a missing key; a present key
holds a `PyVal` (which may itself be `PyVal.null` for JSON `null`). -/
structure Food where
  food_name : Option String
  serving_qty : Option PyVal
  serving_unit : Option String
  nf_calories : Option PyVal
  nf_protein : Option PyVal
  nf_total_fat : Option PyVal
  nf_total_carbohydrate : Option PyVal
  nf_dietary_fiber : Option PyVal
  nf_sugars : Option PyVal
  nf_sodium : Option PyVal
deriving DecidableEq, Repr

/-- One nutrient line of the report (main.py lines 199-205): the value
formatted to two decimals with its unit when the `isinstance` check
passes, the literal `N/A` otherwise (missing key, `null`, or any
non-numeric value). -/
def nutrientLine (label : String) (v : Option PyVal) (unitStr : String) : String :=
  match v with
  | some x =>
    if isNumberVal x then
      "  " ++ label ++ ": " ++ formatFixed2 (toRat x) ++ " " ++ unitStr ++ "\n"
    else "  " ++ label ++ ": N/A\n"
  | none => "  " ++ label ++ ": N/A\n"

/-- The separator written after each food block: `"-" * 30` (line 206). -/
def separatorLine : String := String.mk (List.replicate 30 '-')

/-- The block the formatter appends for one food (main.py lines 177-206):
the `Food:` line with title-cased name and verbatim serving quantity
(defaults `N/A`, `1`, `serving`), the seven nutrient lines in source
order, then the separator. -/
def foodBlock (food : Food) : String :=
  let food_name := pyTitle (food.food_name.getD "N/A")
  let serving_qty := food.serving_qty.getD (PyVal.intV 1)
  let serving_unit := food.serving_unit.getD "serving"
  ("\nFood: " ++ food_name ++ " (" ++ pyStr serving_qty ++ " " ++
      serving_unit ++ ")\n") ++
  nutrientLine "Calories" food.nf_calories "kcal" ++
  nutrientLine "Protein" food.nf_protein "g" ++
  nutrientLine "Total Fat" food.nf_total_fat "g" ++
  nutrientLine "Total Carbohydrates" food.nf_total_carbohydrate "g" ++
  nutrientLine "Dietary Fiber" food.nf_dietary_fiber "g" ++
  nutrientLine "Sugars" food.nf_sugars "g" ++
  nutrientLine "Sodium" food.nf_sodium "mg" ++
  separatorLine ++ "\n"

/-- `format_nutritional_data` (main.py lines 157-208).  The raw response is
modelled by its `foods` array (`none` models passing `None`; a missing
`foods` key and an empty array are both falsy in `raw_data.get('foods')`
and are modelled by the empty list). -/
def format_nutritional_data : Option (List Food) → String
  | none => "No nutritional data available."
  | some foods =>
    if foods = [] then "No nutritional data available."
    else
      List.foldl (fun acc food => acc ++ foodBlock food)
        "--- Nutritional Information ---\n" foods

/-- Outcome of the single `requests.post` call in `get_nutritional_info`
(main.py lines 117-153), one constructor per `except` branch plus the
parsed 2xx response.  `success foods` carries the `foods` array of the
JSON body (empty when the key is missing or the array is empty, the two
cases `response_json.get('foods')` treats alike). -/
inductive ApiOutcome where
  | httpError (status : Nat)
  | connectionError
  | timeoutError
  | requestError
  | success (foods : List Food)
deriving DecidableEq, Repr

/-- `get_nutritional_info` (main.py lines 84-155): returns the parsed
response only when the request succeeded and the `foods` array is
non-empty; every exception branch and the zero-records branch return
`None`. -/
def get_nutritional_info : ApiOutcome → Option (List Food)
  | .success foods => if foods = [] then none else some foods
  | _ => none

/-- `get_user_food_input` (main.py lines 60-82), driven by the stream of
lines the user types: strip the line, re-prompt (recurse on the rest of
the stream) when it is empty or contains a character that is neither a
letter nor whitespace, and return the stripped line otherwise.  `none`
means the modelled stream ran out before a valid line appeared. -/
def get_user_food_input : List String → Option String
  | [] => none
  | s :: rest =>
    let food_item := pyStrip s
    if food_item = "" then get_user_food_input rest
    else if food_item.data.all (fun c => c.isAlpha || c.isWhitespace) then
      some food_item
    else get_user_food_input rest

/-- The filename sanitization of `save_to_file` (main.py line 230): keep
only alphanumerics, spaces and underscores, then replace spaces with
underscores. -/
def sanitize (food_item : String) : String :=
  String.mk
    ((food_item.data.filter
        (fun c => c.isAlphanum || c = ' ' || c = '_')).map
      (fun c => if c = ' ' then '_' else c))

/-- `save_to_file` (main.py lines 210-246) with the default
`filename_prefix="nutrition_data"` used by `main`: builds
`nutrition_data_<sanitized>_<date>.txt` and returns the filename when the
write succeeds (`writeOk`), `None` on an `IOError`.  The `data` string is
what gets written; it does not influence the name. -/
def save_to_file (data food_item current_date : String)
    (writeOk : Bool) : Option String :=
  let sanitized_food_item := sanitize food_item
  let filename :=
    "nutrition_data_" ++ sanitized_food_item ++ "_" ++ current_date ++ ".txt"
  if writeOk then some filename else none

/-- Observable I/O actions of one run of `main`, in order of occurrence.
`fileWrite` records a successful save, `fileMove` a successful
`os.rename`, `emailSend` the single `send_email` call with the attachment
path it was handed. -/
inductive Event where
  | apiRequest (query : String)
  | fileWrite (path contents : String)
  | fileMove (src dst : String)
  | emailSend (subject body recipient : String) (attachment : Option String)
deriving DecidableEq, Repr

/-- Environment of one run of `main`: the stdin lines, the outcome of the
API request, whether the file write and the `os.rename` succeed, the
current date (`datetime.now().strftime("%Y-%m-%d")`), and
`RECEIVER_EMAIL` from the configuration. -/
structure World where
  inputs : List String
  api : ApiOutcome
  writeOk : Bool
  renameOk : Bool
  today : String
  receiver : String

/-- The email body built in `main` (main.py line 382). -/
def emailBodyFor (food_item formatted_data : String) : String :=
  "Hello,\n\nHere is the detailed nutritional information for \x27" ++
    food_item ++
    "\x27 that you requested via the Nutrition Tracker program.\n\n" ++
    formatted_data ++ "\n\nBest regards,\nYour Nutrition Tracker"

/-- The tail of `main` after a successful save (main.py lines 350-393):
move the artifact into `logs/` (on success the attachment path becomes the
new path, on an `OSError` it stays the original path), then call
`send_email` with subject, body, `RECEIVER_EMAIL` and that path. -/
def afterSave (w : World)
    (food_item formatted_data original_file_path : String) : List Event :=
  let new_file_path := "logs/" ++ original_file_path
  let email_subject :=
    "Nutrition Report for: " ++ food_item ++ " (" ++ w.today ++ ")"
  let email_body := emailBodyFor food_item formatted_data
  if w.renameOk then
    [Event.fileMove original_file_path new_file_path,
     Event.emailSend email_subject email_body w.receiver (some new_file_path)]
  else
    [Event.emailSend email_subject email_body w.receiver
      (some original_file_path)]

/-- `main` (main.py lines 322-402) as the trace of I/O events it performs:
validated input, one API request, then — only on success — formatting,
saving, moving and mailing, each later stage gated on the earlier one. -/
def runMain (w : World) : List Event :=
  match get_user_food_input w.inputs with
  | none => []
  | some food_item =>
    Event.apiRequest food_item ::
    match get_nutritional_info w.api with
    | none => []
    | some raw =>
      let formatted_data := format_nutritional_data (some raw)
      match save_to_file formatted_data food_item w.today w.writeOk with
      | none => []
      | some original_file_path =>
        Event.fileWrite original_file_path formatted_data ::
        afterSave w food_item formatted_data original_file_path

/-- Concatenation of the per-food blocks, matching the accumulation of the
`for` loop in `format_nutritional_data`. -/
def concatBlocks : List Food → String
  | [] => ""
  | f :: fs => foodBlock f ++ concatBlocks fs

/-- The claim vocabulary for a present nutrient: the stored value is a
finite number (`int` or `float`; all modelled numbers are finite). -/
def presentFinite : Option PyVal → Bool
  | some (.intV _) => true
  | some (.floatV _) => true
  | _ => false

/-- A rendered number with exactly two digits after the decimal point:
everything before the sole dot is dot-free, and exactly two digit
characters follow it. -/
def twoDecimal (s : String) : Prop :=
  ∃ (ip : String) (d1 d2 : Char),
    s = ip ++ "." ++ String.mk [d1, d2] ∧
    d1.isDigit = true ∧ d2.isDigit = true ∧
    ∀ c ∈ ip.data, c ≠ '.'

/-- The single-record response of spec scenario 1 (query `"apple"`,
energy 95, protein present, the rest absent); protein is given an
integer-valued float so that all arithmetic is kernel-reducible. -/
def appleFood : Food where
  food_name := some "apple"
  serving_qty := some (PyVal.intV 1)
  serving_unit := some "medium"
  nf_calories := some (PyVal.floatV 95)
  nf_protein := some (PyVal.floatV 3)
  nf_total_fat := none
  nf_total_carbohydrate := none
  nf_dietary_fiber := none
  nf_sugars := none
  nf_sodium := none

/-- A record with every key missing, exercising all the defaults. -/
def emptyFood : Food :=
  ⟨none, none, none, none, none, none, none, none, none, none⟩

/-- Concrete world for the failed-save scenario. -/
def worldSaveFails : World where
  inputs := ["apple"]
  api := ApiOutcome.success [appleFood]
  writeOk := false
  renameOk := true
  today := "2025-07-30"
  receiver := "user@example.com"

/-- Concrete world for the failed-relocation scenario (spec scenario 4). -/
def worldMoveFails : World where
  inputs := ["apple"]
  api := ApiOutcome.success [appleFood]
  writeOk := true
  renameOk := false
  today := "2025-07-30"
  receiver := "user@example.com"

/-! ## Helper lemmas -/

theorem strData_append (a b : String) : (a ++ b).data = a.data ++ b.data := rfl

theorem strAppend_assoc (a b c : String) : a ++ b ++ c = a ++ (b ++ c) := by
  show String.mk ((a.data ++ b.data) ++ c.data)
      = String.mk (a.data ++ (b.data ++ c.data))
  rw [List.append_assoc]

theorem strAppend_empty (a : String) : a ++ "" = a := by
  show String.mk (a.data ++ []) = a
  rw [List.append_nil]

theorem digitChar_isDigit (d : Nat) : (digitChar d).isDigit = true := by
  match d with
  | 0 | 1 | 2 | 3 | 4 | 5 | 6 | 7 | 8 => rfl
  | n + 9 => rfl

theorem natToDigitsAux_isDigit :
    ∀ (fuel n : Nat), ∀ c ∈ natToDigitsAux fuel n, c.isDigit = true := by
  intro fuel
  induction fuel with
  | zero => intro n c hc; simp [natToDigitsAux] at hc
  | succ k ih =>
    intro n c hc
    rw [natToDigitsAux] at hc
    split at hc
    · rw [List.mem_singleton] at hc
      subst hc; exact digitChar_isDigit n
    · rw [List.mem_append] at hc
      rcases hc with hc | hc
      · exact ih _ c hc
      · rw [List.mem_singleton] at hc
        subst hc; exact digitChar_isDigit _

theorem isDigit_ne_dot {c : Char} (h : c.isDigit = true) : c ≠ '.' := by
  intro e; subst e; exact absurd h (by decide)

theorem twoDecimal_parts (sgn : String) (hs : sgn = "-" ∨ sgn = "")
    (n d1 d2 : Nat) :
    twoDecimal (sgn ++ natToStr n ++ "." ++ String.mk [digitChar d1, digitChar d2]) := by
  refine ⟨sgn ++ natToStr n, digitChar d1, digitChar d2, ?_,
    digitChar_isDigit _, digitChar_isDigit _, ?_⟩
  · rw [strAppend_assoc]
  · intro c hc
    rw [strData_append, List.mem_append] at hc
    rcases hc with hc | hc
    · rcases hs with rfl | rfl
      · rw [List.mem_singleton] at hc; subst hc; decide
      · simp at hc
    · exact isDigit_ne_dot (natToDigitsAux_isDigit _ _ c hc)

theorem twoDecimal_formatFixed2 (q : ℚ) : twoDecimal (formatFixed2 q) := by
  unfold formatFixed2
  exact twoDecimal_parts _ (by split <;> simp) _ _ _

theorem foldl_blocks (foods : List Food) : ∀ acc : String,
    List.foldl (fun acc food => acc ++ foodBlock food) acc foods
      = acc ++ concatBlocks foods := by
  induction foods with
  | nil => intro acc; exact (strAppend_empty acc).symm
  | cons f fs ih =>
    intro acc
    rw [List.foldl_cons, ih (acc ++ foodBlock f), concatBlocks,
      strAppend_assoc]

theorem get_user_food_input_valid :
    ∀ (inputs : List String) (s : String),
      get_user_food_input inputs = some s →
      s ≠ "" ∧ ∀ c ∈ s.data, c.isAlpha = true ∨ c.isWhitespace = true := by
  intro inputs
  induction inputs with
  | nil => intro s h; simp [get_user_food_input] at h
  | cons a rest ih =>
    intro s h
    rw [get_user_food_input] at h
    split at h
    · exact ih s h
    · split at h
      · injection h with h
        subst h
        rename_i hne hall
        refine ⟨hne, ?_⟩
        intro c hc
        rw [List.all_eq_true] at hall
        rcases Bool.or_eq_true_iff.mp (hall c hc) with h1 | h1
        · exact Or.inl h1
        · exact Or.inr h1
      · exact ih s h

/-! ## Claim theorems -/

/-- Claim C1: for every `FoodNutrientRecord` the formatter renders the
seven nutrient fields in the fixed order energy, protein, fat,
carbohydrate, fiber, sugar, sodium with units kcal, g, g, g, g, g, mg; a
present value (a finite number) is rendered with exactly two digits after
the decimal point, an absent one (missing key or `null`) as the literal
`N/A`, and no third representation is ever produced for any input
value. -/
theorem nutrient_rendering_fixed_order_two_decimals_or_NA
    (food : Food) (label unitStr : String) (v : Option PyVal) :
    foodBlock food =
      ("\nFood: " ++ pyTitle (food.food_name.getD "N/A") ++ " (" ++
          pyStr (food.serving_qty.getD (PyVal.intV 1)) ++ " " ++
          food.serving_unit.getD "serving" ++ ")\n") ++
        nutrientLine "Calories" food.nf_calories "kcal" ++
        nutrientLine "Protein" food.nf_protein "g" ++
        nutrientLine "Total Fat" food.nf_total_fat "g" ++
        nutrientLine "Total Carbohydrates" food.nf_total_carbohydrate "g" ++
        nutrientLine "Dietary Fiber" food.nf_dietary_fiber "g" ++
        nutrientLine "Sugars" food.nf_sugars "g" ++
        nutrientLine "Sodium" food.nf_sodium "mg" ++
        separatorLine ++ "\n"
    ∧ ((v = none ∨ v = some PyVal.null) →
        nutrientLine label v unitStr = "  " ++ label ++ ": N/A\n")
    ∧ (presentFinite v = true →
        ∃ num, nutrientLine label v unitStr
            = "  " ++ label ++ ": " ++ num ++ " " ++ unitStr ++ "\n"
          ∧ twoDecimal num)
    ∧ (nutrientLine label v unitStr = "  " ++ label ++ ": N/A\n"
       ∨ ∃ num, nutrientLine label v unitStr
            = "  " ++ label ++ ": " ++ num ++ " " ++ unitStr ++ "\n"
          ∧ twoDecimal num) := by
  refine ⟨rfl, ?_, ?_, ?_⟩
  · rintro (rfl | rfl) <;> rfl
  · intro h
    match v with
    | some (PyVal.intV n) =>
      exact ⟨formatFixed2 (toRat (PyVal.intV n)), rfl, twoDecimal_formatFixed2 _⟩
    | some (PyVal.floatV q) =>
      exact ⟨formatFixed2 (toRat (PyVal.floatV q)), rfl, twoDecimal_formatFixed2 _⟩
    | some (PyVal.strV s) => simp [presentFinite] at h
    | some (PyVal.boolV b) => simp [presentFinite] at h
    | some PyVal.null => simp [presentFinite] at h
    | none => simp [presentFinite] at h
  · match v with
    | some (PyVal.intV n) =>
      exact Or.inr ⟨formatFixed2 (toRat (PyVal.intV n)), rfl,
        twoDecimal_formatFixed2 _⟩
    | some (PyVal.floatV q) =>
      exact Or.inr ⟨formatFixed2 (toRat (PyVal.floatV q)), rfl,
        twoDecimal_formatFixed2 _⟩
    | some (PyVal.boolV b) =>
      exact Or.inr ⟨formatFixed2 (toRat (PyVal.boolV b)), rfl,
        twoDecimal_formatFixed2 _⟩
    | some (PyVal.strV s) => exact Or.inl rfl
    | some PyVal.null => exact Or.inl rfl
    | none => exact Or.inl rfl

/-- Witness for C1 at the scenario-1 record: a present calorie value
renders as a two-decimal number with unit kcal, and a missing fat value
renders as the literal `N/A`. -/
theorem nutrient_rendering_fixed_order_two_decimals_or_NA_witness :
    (∃ num, nutrientLine "Calories" (some (PyVal.floatV 95)) "kcal"
        = "  " ++ "Calories" ++ ": " ++ num ++ " " ++ "kcal" ++ "\n"
      ∧ twoDecimal num)
    ∧ nutrientLine "Total Fat" none "g" = "  " ++ "Total Fat" ++ ": N/A\n" :=
  ⟨(nutrient_rendering_fixed_order_two_decimals_or_NA appleFood "Calories"
      "kcal" (some (PyVal.floatV 95))).2.2.1 rfl,
   (nutrient_rendering_fixed_order_two_decimals_or_NA appleFood "Total Fat"
      "g" none).2.1 (Or.inl rfl)⟩

/-- Claim C2: a `NutritionResult` with zero records, and an entirely
absent one, render to exactly the literal
`"No nutritional data available."` — no header, no record block, no
separator. -/
theorem empty_result_renders_no_data_literal :
    format_nutritional_data none = "No nutritional data available."
    ∧ format_nutritional_data (some []) = "No nutritional data available." :=
  ⟨rfl, rfl⟩

/-- Claim C3: the fetch stage returns a success only when the response
holds at least one food record; a success status with zero records yields
the failure result `none` (the NoMatch branch), so every successful
result has at least one record. -/
theorem fetch_success_has_records (o : ApiOutcome) :
    (∀ r, get_nutritional_info o = some r → r ≠ [])
    ∧ (∀ foods : List Food, foods = [] →
        get_nutritional_info (ApiOutcome.success foods) = none) := by
  constructor
  · intro r hr
    match o with
    | ApiOutcome.success foods =>
      rw [get_nutritional_info] at hr
      split at hr
      · cases hr
      · injection hr with hr
        subst hr
        assumption
    | ApiOutcome.httpError s => cases hr
    | ApiOutcome.connectionError => cases hr
    | ApiOutcome.timeoutError => cases hr
    | ApiOutcome.requestError => cases hr
  · rintro foods rfl
    rfl

/-- Witness for C3: a one-record response is accepted and is non-empty; a
zero-record success response is rejected. -/
theorem fetch_success_has_records_witness :
    ([appleFood] : List Food) ≠ []
    ∧ get_nutritional_info (ApiOutcome.success []) = none :=
  ⟨(fetch_success_has_records (ApiOutcome.success [appleFood])).1
      [appleFood] rfl,
   (fetch_success_has_records (ApiOutcome.success [])).2 [] rfl⟩

/-- Claim C4: when saving the report fails, the run aborts with no
delivery attempt and no file relocation — no `emailSend` and no
`fileMove` event ever appears in the trace. -/
theorem failed_save_skips_delivery (w : World) (h : w.writeOk = false) :
    (∀ s b t a, Event.emailSend s b t a ∉ runMain w)
    ∧ (∀ src dst, Event.fileMove src dst ∉ runMain w) := by
  constructor
  · intro s b t a
    rcases hin : get_user_food_input w.inputs with _ | q
    · simp [runMain, hin]
    · rcases hapi : get_nutritional_info w.api with _ | raw
      · simp [runMain, hin, hapi]
      · simp [runMain, hin, hapi, save_to_file, h]
  · intro src dst
    rcases hin : get_user_food_input w.inputs with _ | q
    · simp [runMain, hin]
    · rcases hapi : get_nutritional_info w.api with _ | raw
      · simp [runMain, hin, hapi]
      · simp [runMain, hin, hapi, save_to_file, h]

/-- Witness for C4 in the concrete failed-save world: no email is
attempted and no file is moved. -/
theorem failed_save_skips_delivery_witness :
    Event.emailSend "s" "b" "user@example.com" none ∉ runMain worldSaveFails
    ∧ Event.fileMove "a.txt" "logs/a.txt" ∉ runMain worldSaveFails :=
  ⟨(failed_save_skips_delivery worldSaveFails rfl).1 "s" "b"
      "user@example.com" none,
   (failed_save_skips_delivery worldSaveFails rfl).2 "a.txt" "logs/a.txt"⟩

/-- Claim C5: when the artifact is saved but its relocation into `logs/`
fails, the run does not abort — delivery is still attempted with the
original, pre-relocation path (and no move event occurs); when the
relocation succeeds, the attachment path is the new path inside
`logs/`. -/
theorem relocation_failure_keeps_original_attachment
    (w : World) (q : String) (raw : List Food)
    (hq : get_user_food_input w.inputs = some q)
    (hr : get_nutritional_info w.api = some raw)
    (hw : w.writeOk = true) :
    (w.renameOk = false →
      (∃ s b, Event.emailSend s b w.receiver
          (some ("nutrition_data_" ++ sanitize q ++ "_" ++ w.today ++ ".txt"))
        ∈ runMain w)
      ∧ ∀ src dst, Event.fileMove src dst ∉ runMain w)
    ∧ (w.renameOk = true →
      ∃ s b, Event.emailSend s b w.receiver
          (some ("logs/" ++
            ("nutrition_data_" ++ sanitize q ++ "_" ++ w.today ++ ".txt")))
        ∈ runMain w) := by
  constructor
  · intro hrn
    constructor
    · refine ⟨"Nutrition Report for: " ++ q ++ " (" ++ w.today ++ ")",
        emailBodyFor q (format_nutritional_data (some raw)), ?_⟩
      simp [runMain, hq, hr, save_to_file, hw, afterSave, hrn]
    · intro src dst
      simp [runMain, hq, hr, save_to_file, hw, afterSave, hrn]
  · intro hrn
    refine ⟨"Nutrition Report for: " ++ q ++ " (" ++ w.today ++ ")",
      emailBodyFor q (format_nutritional_data (some raw)), ?_⟩
    simp [runMain, hq, hr, save_to_file, hw, afterSave, hrn]

/-- Witness for C5 in the concrete failed-relocation world: the email is
attempted with the original filename as attachment. -/
theorem relocation_failure_keeps_original_attachment_witness :
    ∃ s b, Event.emailSend s b "user@example.com"
        (some "nutrition_data_apple_2025-07-30.txt")
      ∈ runMain worldMoveFails :=
  ((relocation_failure_keeps_original_attachment worldMoveFails "apple"
      [appleFood] rfl rfl rfl).1 rfl).1

/-- Claim C6: the generated artifact name is exactly
`nutrition_data_<sanitized-query>_<YYYY-MM-DD>.txt`, where the sanitized
query keeps only alphanumerics, spaces and underscores and then turns
spaces into underscores — so it consists of alphanumerics and underscores
only, with no space characters. -/
theorem artifact_name_template (data food_item current_date : String)
    (ok : Bool) (fname : String)
    (h : save_to_file data food_item current_date ok = some fname) :
    fname = "nutrition_data_" ++ sanitize food_item ++ "_" ++
        current_date ++ ".txt"
    ∧ ∀ c ∈ (sanitize food_item).data,
        (c.isAlphanum = true ∨ c = '_') ∧ c ≠ ' ' := by
  constructor
  · rw [save_to_file] at h
    split at h
    · injection h with h
      exact h.symm
    · cases h
  · intro c hc
    rw [sanitize] at hc
    rcases List.mem_map.mp hc with ⟨a, ha, rfl⟩
    have hp := (List.mem_filter.mp ha).2
    by_cases hsp : a = ' '
    · subst hsp
      constructor
      · exact Or.inr (by simp)
      · simp
    · rw [if_neg hsp]
      refine ⟨?_, hsp⟩
      simp only [Bool.or_eq_true, decide_eq_true_eq] at hp
      rcases hp with (h1 | h1) | h1
      · exact Or.inl h1
      · exact absurd h1 hsp
      · exact Or.inr h1

/-- Witness for C6: the query `"chicken breast!"` yields the template
filename with spaces replaced and the illegal character removed. -/
theorem artifact_name_template_witness :
    ("nutrition_data_chicken_breast_2025-07-30.txt"
      = "nutrition_data_" ++ sanitize "chicken breast!" ++ "_" ++
          "2025-07-30" ++ ".txt")
    ∧ ∀ c ∈ (sanitize "chicken breast!").data,
        (c.isAlphanum = true ∨ c = '_') ∧ c ≠ ' ' :=
  artifact_name_template "body" "chicken breast!" "2025-07-30" true
    "nutrition_data_chicken_breast_2025-07-30.txt" rfl

/-- Claim C7: for every non-empty `NutritionResult` the rendered report is
the header followed by the record blocks, and every record block —
including the last — ends with the 30-character separator line. -/
theorem separator_follows_every_record (foods : List Food)
    (h : foods ≠ []) :
    format_nutritional_data (some foods)
      = "--- Nutritional Information ---\n" ++ concatBlocks foods
    ∧ (∀ food, ∃ b, foodBlock food = b ++ (separatorLine ++ "\n"))
    ∧ separatorLine.length = 30 := by
  refine ⟨?_, ?_, rfl⟩
  · rw [format_nutritional_data, if_neg h, foldl_blocks]
  · intro food
    refine ⟨("\nFood: " ++ pyTitle (food.food_name.getD "N/A") ++ " (" ++
        pyStr (food.serving_qty.getD (PyVal.intV 1)) ++ " " ++
        food.serving_unit.getD "serving" ++ ")\n") ++
      nutrientLine "Calories" food.nf_calories "kcal" ++
      nutrientLine "Protein" food.nf_protein "g" ++
      nutrientLine "Total Fat" food.nf_total_fat "g" ++
      nutrientLine "Total Carbohydrates" food.nf_total_carbohydrate "g" ++
      nutrientLine "Dietary Fiber" food.nf_dietary_fiber "g" ++
      nutrientLine "Sugars" food.nf_sugars "g" ++
      nutrientLine "Sodium" food.nf_sodium "mg", ?_⟩
    rw [foodBlock]
    simp only [strAppend_assoc]

/-- Witness for C7 at the one-record result. -/
theorem separator_follows_every_record_witness :
    format_nutritional_data (some [appleFood])
      = "--- Nutritional Information ---\n" ++ concatBlocks [appleFood]
    ∧ (∀ food, ∃ b, foodBlock food = b ++ (separatorLine ++ "\n"))
    ∧ separatorLine.length = 30 :=
  separator_follows_every_record [appleFood] (by simp)

/-- Claim C8: every value the input-validation stage returns is a
non-empty string of letters and whitespace only; a rejected line (empty,
or containing a non-letter non-space character) makes the stage loop on
to the next line instead of aborting; and every API request in any run is
issued with a validated query only. -/
theorem input_validation_loop :
    (∀ inputs s, get_user_food_input inputs = some s →
        s ≠ "" ∧ ∀ c ∈ s.data, c.isAlpha = true ∨ c.isWhitespace = true)
    ∧ (∀ s rest, (pyStrip s = "" ∨
          ((pyStrip s).data.all fun c => c.isAlpha || c.isWhitespace)
            = false) →
        get_user_food_input (s :: rest) = get_user_food_input rest)
    ∧ (∀ (w : World) (q : String), Event.apiRequest q ∈ runMain w →
        q ≠ "" ∧ ∀ c ∈ q.data, c.isAlpha = true ∨ c.isWhitespace = true) := by
  refine ⟨get_user_food_input_valid, ?_, ?_⟩
  · intro s rest h
    rcases h with h | h
    · rw [get_user_food_input, if_pos h]
    · rw [get_user_food_input]
      split
      · rfl
      · rw [h]
        simp
  · intro w q hq
    rcases hin : get_user_food_input w.inputs with _ | q'
    · simp [runMain, hin] at hq
    · rcases hapi : get_nutritional_info w.api with _ | raw
      · simp [runMain, hin, hapi] at hq
        subst hq
        exact get_user_food_input_valid _ _ hin
      · rcases hsv : save_to_file (format_nutritional_data (some raw)) q'
            w.today w.writeOk with _ | path
        · simp [runMain, hin, hapi, hsv] at hq
          subst hq
          exact get_user_food_input_valid _ _ hin
        · rcases hrn : w.renameOk with _ | _ <;>
            · simp [runMain, hin, hapi, hsv, afterSave, hrn] at hq
              subst hq
              exact get_user_food_input_valid _ _ hin

/-- Witness for C8: a valid query is returned intact and satisfies the
invariant, while the scenario-5 query `"Chicken Breast!!"` is rejected
and the stage moves on to the next line. -/
theorem input_validation_loop_witness :
    ("chicken breast" ≠ ""
      ∧ ∀ c ∈ ("chicken breast" : String).data,
          c.isAlpha = true ∨ c.isWhitespace = true)
    ∧ get_user_food_input ["Chicken Breast!!", "apple"]
        = get_user_food_input ["apple"] :=
  ⟨input_validation_loop.1 ["chicken breast"] "chicken breast" rfl,
   input_validation_loop.2.1 "Chicken Breast!!" ["apple"]
     (Or.inr (by decide))⟩

/-- Claim C9: the report formatter is deterministic — two runs on the same
`NutritionResult` (identical records and identical optional-field
presence) produce byte-identical output.  In this embedding the formatter
is a pure function of the parsed result alone (it reads no clock,
filesystem or configuration), so equality of inputs forces equality of
outputs. -/
theorem formatter_deterministic (r₁ r₂ : Option (List Food))
    (h : r₁ = r₂) :
    format_nutritional_data r₁ = format_nutritional_data r₂ := by
  rw [h]

/-- Witness for C9 at the one-record result. -/
theorem formatter_deterministic_witness :
    format_nutritional_data (some [appleFood])
      = format_nutritional_data (some [appleFood]) :=
  formatter_deterministic (some [appleFood]) (some [appleFood]) rfl

/-- Claim C10: missing display name, serving quantity or serving unit are
replaced by defaults rather than failing — the name defaults to `N/A`
(then title-cased, which leaves it as `N/A`), the quantity to `1`, the
unit to `serving` — and the serving quantity is rendered verbatim
(Python `str`), not with the two-decimal nutrient format. -/
theorem missing_header_field_defaults (f : Food) :
    (∃ rest, foodBlock f =
        ("\nFood: " ++ pyTitle (f.food_name.getD "N/A") ++ " (" ++
          pyStr (f.serving_qty.getD (PyVal.intV 1)) ++ " " ++
          f.serving_unit.getD "serving" ++ ")\n") ++ rest)
    ∧ (f.food_name = none → f.serving_qty = none → f.serving_unit = none →
        ∃ rest, foodBlock f = "\nFood: N/A (1 serving)\n" ++ rest)
    ∧ pyStr (PyVal.intV 1) = "1"
    ∧ formatFixed2 (toRat (PyVal.intV 1)) = "1.00"
    ∧ pyStr (PyVal.intV 1) ≠ formatFixed2 (toRat (PyVal.intV 1)) := by
  have hrest : foodBlock f =
      ("\nFood: " ++ pyTitle (f.food_name.getD "N/A") ++ " (" ++
        pyStr (f.serving_qty.getD (PyVal.intV 1)) ++ " " ++
        f.serving_unit.getD "serving" ++ ")\n") ++
      (nutrientLine "Calories" f.nf_calories "kcal" ++
        nutrientLine "Protein" f.nf_protein "g" ++
        nutrientLine "Total Fat" f.nf_total_fat "g" ++
        nutrientLine "Total Carbohydrates" f.nf_total_carbohydrate "g" ++
        nutrientLine "Dietary Fiber" f.nf_dietary_fiber "g" ++
        nutrientLine "Sugars" f.nf_sugars "g" ++
        nutrientLine "Sodium" f.nf_sodium "mg" ++
        separatorLine ++ "\n") := by
    rw [foodBlock]
    simp only [strAppend_assoc]
  refine ⟨⟨_, hrest⟩, ?_, rfl, by decide, by decide⟩
  intro h1 h2 h3
  refine ⟨nutrientLine "Calories" f.nf_calories "kcal" ++
    nutrientLine "Protein" f.nf_protein "g" ++
    nutrientLine "Total Fat" f.nf_total_fat "g" ++
    nutrientLine "Total Carbohydrates" f.nf_total_carbohydrate "g" ++
    nutrientLine "Dietary Fiber" f.nf_dietary_fiber "g" ++
    nutrientLine "Sugars" f.nf_sugars "g" ++
    nutrientLine "Sodium" f.nf_sodium "mg" ++
    separatorLine ++ "\n", ?_⟩
  rw [hrest, h1, h2, h3]
  have hhead : ("\nFood: " ++ pyTitle ((none : Option String).getD "N/A") ++
      " (" ++ pyStr ((none : Option PyVal).getD (PyVal.intV 1)) ++ " " ++
      ((none : Option String).getD "serving") ++ ")\n")
      = "\nFood: N/A (1 serving)\n" := by decide
  rw [hhead]

/-- Witness for C10 at the all-defaults record. -/
theorem missing_header_field_defaults_witness :
    ∃ rest, foodBlock emptyFood = "\nFood: N/A (1 serving)\n" ++ rest :=
  (missing_header_field_defaults emptyFood).2.1 rfl rfl rfl

end CAProject
